import Mathlib

/-!
# Trace semantics of the otel-go-demo programs

Shallow embedding of `otel-go-demo/http.go` and `otel-go-demo/grpc.go`.

The two programs are straight-line Go code that drives the OpenTelemetry span
API. The tracing SDK, the HTTP client and the clock are external; the
embedding records every call the program makes on them, in program order, in
a log of events (`Ev`). A run is determined by what the external world
answers: whether the exporter could be built, how `http.DefaultClient.Do`
answered, and the library table `http.StatusText`.

Go `defer` is written out: the deferred calls appear, in reverse order of
registration, in front of every `return` of the function that registered them.
-/

namespace OtelDemo

/-- Go `error` value, identified by the text `err.Error()` returns. -/
structure GoError where
  msg : String
  deriving DecidableEq, Repr

/-- The two programs of the repository: `http.go` and `grpc.go`. -/
inductive Variant where
  | http
  | grpc
  deriving DecidableEq, Repr

/-- Status codes of `go.opentelemetry.io/otel/codes`; a span on which
`SetStatus` is never called keeps `Unset`. -/
inductive Code where
  | Unset
  | Error
  | Ok
  deriving DecidableEq, Repr

abbrev SpanId := Nat

/-- The part of `context.Context` the programs use: the span the context was
derived under (`none` for `context.Background()`). -/
abbrev Ctx := Option SpanId

/-- Attribute keys: string literals passed to `attribute.String`, and the
`semconv` key constants the programs name. -/
inductive Key where
  | lit (k : String)
  | DBSystemKey
  | DBStatementKey
  | HTTPMethodKey
  | HTTPTargetKey
  | HTTPSchemeKey
  | HTTPURLKey
  | HTTPStatusCodeKey
  deriving DecidableEq, Repr

inductive AttrValue where
  | str (s : String)
  | int (i : Int)
  deriving DecidableEq, Repr

structure KeyValue where
  key : Key
  value : AttrValue
  deriving DecidableEq, Repr

/-- The functions of each program. -/
inductive Fn where
  | main
  | preCheck
  | doWork
  | cacheLookup
  | databaseCall
  | callExternalAPI
  | postProcess
  deriving DecidableEq, Repr

/-- One observable action of a run. The span operations are the calls on the
tracing API; `call` and `ret` mark entry to and return from a function of the
program (with the returned `error`, `none` for `nil`). -/
inductive Ev where
  | start (span : SpanId) (name : String) (parent : Option SpanId) (attrs : List KeyValue)
  | End (span : SpanId)
  | addEvent (span : SpanId) (text : String)
  | setAttributes (span : SpanId) (kv : KeyValue)
  | recordError (span : SpanId) (err : GoError)
  | setStatus (span : SpanId) (code : Code) (description : String)
  | sleep (ms : Nat)
  | httpGet (url : String)
  | readAll
  | bodyClose
  | println (text : String)
  | shutdown
  | call (f : Fn)
  | ret (f : Fn) (err : Option GoError)
  deriving DecidableEq, Repr

/-- Answer of `http.DefaultClient.Do(req)`: a transport-level error, or a
response carrying `resp.StatusCode` (a Go `int`). -/
inductive HttpOutcome where
  | transportError (err : GoError)
  | response (statusCode : Int)
  deriving DecidableEq, Repr

/-- State of the tracer: the log so far and the next fresh span identity. -/
structure Tracer where
  log : List Ev := []
  next : SpanId := 0
  deriving Repr

abbrev M := StateM Tracer

def emit (e : Ev) : M Unit :=
  modify fun t => { t with log := t.log ++ [e] }

/-- Model of `tracer.Start(ctx, name, trace.WithAttributes(attrs...))`: a
fresh span whose parent is the span of `ctx`; returns the derived context and
the span. -/
def tracerStart (ctx : Ctx) (name : String) (attrs : List KeyValue) : M (Ctx × SpanId) :=
  fun t => ((some t.next, t.next),
    { log := t.log ++ [Ev.start t.next name ctx attrs], next := t.next + 1 })

/-! ## Strings in which the two programs differ -/

def spanName : Variant → Fn → String
  | .http, .main => "main-operation"
  | .http, .preCheck => "pre-check"
  | .http, .doWork => "doMagic"
  | .http, .cacheLookup => "cache lookup"
  | .http, .databaseCall => "database query"
  | .http, .callExternalAPI => "HTTP GET example.com"
  | .http, .postProcess => "post-process"
  | .grpc, .main => "main-operation-grpc"
  | .grpc, .preCheck => "pre-check-grpc"
  | .grpc, .doWork => "doMagic-grpc"
  | .grpc, .cacheLookup => "cache lookup-grpc"
  | .grpc, .databaseCall => "database query-grpc"
  | .grpc, .callExternalAPI => "HTTP GET example.com-grpc"
  | .grpc, .postProcess => "post-process-grpc"

def beginText : Variant → String
  | .http => "begin main operation"
  | .grpc => "begin main GRPC operation"

def allStepsCompleted : Variant → String
  | .http => "all steps completed"
  | .grpc => "all GRPC steps completed"

def doneText : Variant → String
  | .http => "Trace done."
  | .grpc => "gRPC Trace done."

def workOk : Variant → String
  | .http => "Magic ok"
  | .grpc => "work ok"

def sendingDbQuery : Variant → String
  | .http => "sending fancy db query"
  | .grpc => "sending db query"

def responseRead : Variant → String
  | .http => "response read"
  | .grpc => "response fully read"

def exporterFailed : Variant → String
  | .http => "failed to create OTLP exporter: "
  | .grpc => "failed to create OTLP/gRPC exporter: "

/-! ## The functions of the programs -/

def preCheck (v : Variant) (ctx : Ctx) : M (Option GoError) := do
  emit (.call .preCheck)
  let (_, span) ← tracerStart ctx (spanName v .preCheck) [⟨.lit "step", .str "precheck"⟩]
  emit (.addEvent span "checking prerequisites")
  emit (.sleep 20)
  emit (.End span)
  emit (.ret .preCheck none)
  return none

def cacheLookup (v : Variant) (ctx : Ctx) : M (Option GoError) := do
  emit (.call .cacheLookup)
  let (_, span) ← tracerStart ctx (spanName v .cacheLookup) [⟨.lit "cache", .str "redis"⟩]
  emit (.addEvent span "checking cache")
  emit (.sleep 15)
  emit (.End span)
  emit (.ret .cacheLookup (some ⟨"cache miss"⟩))
  return some ⟨"cache miss"⟩

def databaseCall (v : Variant) (ctx : Ctx) : M (Option GoError) := do
  emit (.call .databaseCall)
  let (_, span) ← tracerStart ctx (spanName v .databaseCall)
    [⟨.DBSystemKey, .str "postgresql"⟩,
     ⟨.DBStatementKey, .str "SELECT * FROM users WHERE id=123"⟩]
  emit (.addEvent span (sendingDbQuery v))
  emit (.sleep 40)
  emit (.addEvent span "db query returned")
  emit (.End span)
  emit (.ret .databaseCall none)
  return none

/-- The function `callExternalAPI`; `statusText` stands for the library table
`http.StatusText` and `o` for the answer of `http.DefaultClient.Do`. -/
def callExternalAPI (v : Variant) (statusText : Int → String) (o : HttpOutcome)
    (ctx : Ctx) : M (Option GoError) := do
  emit (.call .callExternalAPI)
  let (_, span) ← tracerStart ctx (spanName v .callExternalAPI)
    [⟨.HTTPMethodKey, .str "GET"⟩,
     ⟨.HTTPTargetKey, .str "/"⟩,
     ⟨.HTTPSchemeKey, .str "https"⟩,
     ⟨.HTTPURLKey, .str "https://www.example.com/"⟩]
  emit (.addEvent span "sending HTTP request")
  emit (.httpGet "https://www.example.com/")
  match o with
  | .transportError err =>
    emit (.recordError span err)
    emit (.setStatus span .Error err.msg)
    emit (.End span)
    emit (.ret .callExternalAPI (some err))
    return some err
  | .response statusCode =>
    emit (.setAttributes span ⟨.HTTPStatusCodeKey, .int statusCode⟩)
    if statusCode ≥ 400 then
      emit (.setStatus span .Error (statusText statusCode))
    else
      emit (.setStatus span .Ok "")
    emit (.addEvent span "reading HTTP response")
    emit .readAll
    emit (.addEvent span (responseRead v))
    emit .bodyClose
    emit (.End span)
    emit (.ret .callExternalAPI none)
    return none

def doWork (v : Variant) (statusText : Int → String) (o : HttpOutcome)
    (ctx : Ctx) : M (Option GoError) := do
  emit (.call .doWork)
  let (ctx, span) ← tracerStart ctx (spanName v .doWork) [⟨.lit "operation", .str "db+api"⟩]
  emit (.addEvent span "start work sequence")
  emit (.sleep 30)
  match ← cacheLookup v ctx with
  | some _ => emit (.addEvent span "cache miss")
  | none => pure ()
  match ← databaseCall v ctx with
  | some err =>
    emit (.recordError span err)
    emit (.setStatus span .Error err.msg)
    emit (.End span)
    emit (.ret .doWork (some err))
    return some err
  | none =>
  match ← callExternalAPI v statusText o ctx with
  | some err =>
    emit (.recordError span err)
    emit (.setStatus span .Error err.msg)
    emit (.End span)
    emit (.ret .doWork (some err))
    return some err
  | none =>
  emit (.setStatus span .Ok (workOk v))
  emit (.End span)
  emit (.ret .doWork none)
  return none

def postProcess (v : Variant) (ctx : Ctx) : M (Option GoError) := do
  emit (.call .postProcess)
  let (_, span) ← tracerStart ctx (spanName v .postProcess)
    [⟨.lit "step", .str "postprocess"⟩]
  emit (.addEvent span "starting post-processing tasks")
  emit (.sleep 25)
  emit (.addEvent span "cleaning temporary data")
  emit (.sleep 15)
  emit (.addEvent span "finalizing operation")
  emit (.sleep 10)
  emit (.setStatus span .Ok "post-process done")
  emit (.End span)
  emit (.ret .postProcess none)
  return none

/-- The function `main`. `exporter` is the error returned by the exporter
constructor (`none` for `nil`); the result is the value `main` panics with, or
`none` when it returns. -/
def main (v : Variant) (statusText : Int → String) (exporter : Option GoError)
    (o : HttpOutcome) : M (Option GoError) := do
  emit (.call .main)
  match exporter with
  | some err => return some ⟨exporterFailed v ++ err.msg⟩
  | none =>
  let (ctx, mainSpan) ← tracerStart none (spanName v .main) [⟨.lit "startup", .str "true"⟩]
  emit (.addEvent mainSpan (beginText v))
  match ← preCheck v ctx with
  | some err =>
    emit (.recordError mainSpan err)
    emit (.setStatus mainSpan .Error err.msg)
    emit (.End mainSpan)
    emit .shutdown
    emit (.ret .main none)
    return none
  | none =>
  match ← doWork v statusText o ctx with
  | some err =>
    emit (.recordError mainSpan err)
    emit (.setStatus mainSpan .Error err.msg)
    emit (.End mainSpan)
    emit .shutdown
    emit (.ret .main none)
    return none
  | none =>
  match ← postProcess v ctx with
  | some err =>
    emit (.recordError mainSpan err)
    emit (.setStatus mainSpan .Error err.msg)
    emit (.End mainSpan)
    emit .shutdown
    emit (.ret .main none)
    return none
  | none =>
  emit (.setStatus mainSpan .Ok (allStepsCompleted v))
  emit (.println (doneText v))
  emit (.End mainSpan)
  emit .shutdown
  emit (.ret .main none)
  return none

/-- Log of the run of program `v` in which the exporter is built and the HTTP
client answers `o`. -/
def trace (v : Variant) (statusText : Int → String) (o : HttpOutcome) : List Ev :=
  ((main v statusText none o).run {}).2.log

/-! ## Observations on a log -/

structure Status where
  code : Code
  description : String
  deriving DecidableEq, Repr

def statusSetOn (span : SpanId) : Ev → Option Status
  | .setStatus s c d => if s = span then some ⟨c, d⟩ else none
  | _ => none

/-- Status of `span` at the end of `log`, read off the calls: the code and
description the last `SetStatus` on it passed, and `Unset` when the program
never set one. In these programs `SetStatus` is called at most once on a span
(`status_set_at_most_once`), so how the SDK resolves several calls on one span
plays no part. The SDK keeps a description only next to `codes.Error`
(`sdkStatus` below): the code given here is the code of the span, and so is
the description when the code is `Error`, while a description passed with
`codes.Ok` is not part of the status of the span (`sdkStatusOf_agrees`). -/
def finalStatus (log : List Ev) (span : SpanId) : Status :=
  (log.reverse.findSome? (statusSetOn span)).getD ⟨.Unset, ""⟩

def startedAs (name : String) : Ev → Option SpanId
  | .start s n _ _ => if n = name then some s else none
  | _ => none

/-- The span started under `name` in `log`, if there is one. -/
def spanNamed (log : List Ev) (name : String) : Option SpanId :=
  log.findSome? (startedAs name)

/-- Final status of the span called `name`; `none` when no such span is
started in `log`. -/
def statusOf (log : List Ev) (name : String) : Option Status :=
  (spanNamed log name).map (finalStatus log)

/-- Identity, name and parent of the spans started in `log`, in start order. -/
def startedSpans (log : List Ev) : List (SpanId × String × Option SpanId) :=
  log.filterMap fun
    | .start s n p _ => some (s, n, p)
    | _ => none

/-- Start and end of a span, without the strings. -/
inductive SpanEv where
  | started (s : SpanId) (parent : Option SpanId)
  | ended (s : SpanId)
  deriving DecidableEq, Repr

/-- The start and end operations of `log`, in order. -/
def spanEvents (log : List Ev) : List SpanEv :=
  log.filterMap fun
    | .start s _ p _ => some (.started s p)
    | .End s => some (.ended s)
    | _ => none

def HttpOutcome.transportFailed : HttpOutcome → Prop
  | .transportError _ => True
  | .response _ => False

def HttpOutcome.statusAtLeast (n : Int) : HttpOutcome → Prop
  | .transportError _ => False
  | .response c => n ≤ c

/-- Status `callExternalAPI` sets on its span for a response with status
code `c` (the `if resp.StatusCode >= 400` of the source). -/
def httpStatus (statusText : Int → String) (c : Int) : Status :=
  if c ≥ 400 then ⟨.Error, statusText c⟩ else ⟨.Ok, ""⟩

/-- Order of the status codes in the SDK: `Unset < Error < Ok`. -/
def Code.rank : Code → Nat
  | .Unset => 0
  | .Error => 1
  | .Ok => 2

/-- What the SDK holds for one span as far as its status goes: the status, and
whether `End` was called on the span. -/
structure SpanState where
  status : Status := ⟨.Unset, ""⟩
  ended : Bool := false
  deriving DecidableEq, Repr

/-- Effect of one event on the state of `span` in the tracing SDK
(`SetStatus` and `End` of the recording span of
`go.opentelemetry.io/otel/sdk/trace`, a library outside the repository):
`SetStatus` is ignored once the span is ended and when the span already has a
higher code; otherwise the code is stored, and the description only with
`codes.Error`. -/
def sdkStep (span : SpanId) (st : SpanState) : Ev → SpanState
  | .setStatus s code description =>
    if s ≠ span ∨ st.ended = true ∨ st.status.code.rank > code.rank then st
    else
      match code with
      | .Error => { st with status := ⟨.Error, description⟩ }
      | c => { st with status := ⟨c, ""⟩ }
  | .End s => if s = span then { st with ended := true } else st
  | _ => st

/-- Status the SDK holds for `span` after the calls of `log`. -/
def sdkStatus (log : List Ev) (span : SpanId) : Status :=
  (log.foldl (sdkStep span) {}).status

/-- Status the SDK holds for the span called `name`; `none` when no such span
is started in `log`. -/
def sdkStatusOf (log : List Ev) (name : String) : Option Status :=
  (spanNamed log name).map (sdkStatus log)

/-- The spans on which `SetStatus` is called in `log`, one entry per call. -/
def statusSetSpans (log : List Ev) : List SpanId :=
  log.filterMap fun
    | .setStatus s _ _ => some s
    | _ => none

/-! ## Renaming from `http.go` to `grpc.go` -/

/-- Event texts of `http.go` that `grpc.go` words differently. -/
def renameEventText : String → String
  | "begin main operation" => "begin main GRPC operation"
  | "sending fancy db query" => "sending db query"
  | "response read" => "response fully read"
  | s => s

/-- Messages of the `codes.Ok` statuses of `http.go` that `grpc.go` words
differently. -/
def renameOkMessage : String → String
  | "all steps completed" => "all GRPC steps completed"
  | "Magic ok" => "work ok"
  | s => s

/-- The fixed renaming: span names get the suffix `-grpc`, event texts and the
messages of ok statuses go through the tables above (and the line printed at
the end through its own); everything else is kept. -/
def toGrpc : Ev → Ev
  | .start s n p a => .start s (n ++ "-grpc") p a
  | .addEvent s text => .addEvent s (renameEventText text)
  | .setStatus s .Ok d => .setStatus s .Ok (renameOkMessage d)
  | .println _ => .println "gRPC Trace done."
  | e => e

/-- The span operations and function returns of a log with span names, event
texts and status messages blanked; every other event is dropped. -/
def eraseTexts : Ev → Option Ev
  | .start s _ p a => some (.start s "" p a)
  | .End s => some (.End s)
  | .addEvent s _ => some (.addEvent s "")
  | .setAttributes s kv => some (.setAttributes s kv)
  | .recordError s e => some (.recordError s e)
  | .setStatus s c _ => some (.setStatus s c "")
  | .ret f e => some (.ret f e)
  | _ => none

end OtelDemo

/-! ## The log each function writes -/

namespace OtelDemo

theorem preCheck_run (v : Variant) (ctx : Ctx) (l : List Ev) (n : SpanId) :
    preCheck v ctx ⟨l, n⟩ =
      (none, { log := l ++ [
         Ev.call Fn.preCheck,
         Ev.start n (spanName v Fn.preCheck) ctx
           [KeyValue.mk (Key.lit "step") (AttrValue.str "precheck")],
         Ev.addEvent n "checking prerequisites",
         Ev.sleep 20,
         Ev.End n,
         Ev.ret Fn.preCheck none], next := n + 1 }) := by
  simp [preCheck, emit, tracerStart, bind, StateT.bind, modify, modifyGet,
    MonadStateOf.modifyGet, StateT.modifyGet, pure, StateT.pure]

theorem cacheLookup_run (v : Variant) (ctx : Ctx) (l : List Ev) (n : SpanId) :
    cacheLookup v ctx ⟨l, n⟩ =
      (some ⟨"cache miss"⟩, { log := l ++ [
         Ev.call Fn.cacheLookup,
         Ev.start n (spanName v Fn.cacheLookup) ctx
           [KeyValue.mk (Key.lit "cache") (AttrValue.str "redis")],
         Ev.addEvent n "checking cache",
         Ev.sleep 15,
         Ev.End n,
         Ev.ret Fn.cacheLookup (some (GoError.mk "cache miss"))], next := n + 1 }) := by
  simp [cacheLookup, emit, tracerStart, bind, StateT.bind, modify, modifyGet,
    MonadStateOf.modifyGet, StateT.modifyGet, pure, StateT.pure]

theorem databaseCall_run (v : Variant) (ctx : Ctx) (l : List Ev) (n : SpanId) :
    databaseCall v ctx ⟨l, n⟩ =
      (none, { log := l ++ [
         Ev.call Fn.databaseCall,
         Ev.start n (spanName v Fn.databaseCall) ctx
           [KeyValue.mk Key.DBSystemKey (AttrValue.str "postgresql"),
            KeyValue.mk Key.DBStatementKey (AttrValue.str "SELECT * FROM users WHERE id=123")],
         Ev.addEvent n (sendingDbQuery v),
         Ev.sleep 40,
         Ev.addEvent n "db query returned",
         Ev.End n,
         Ev.ret Fn.databaseCall none], next := n + 1 }) := by
  simp [databaseCall, emit, tracerStart, bind, StateT.bind, modify, modifyGet,
    MonadStateOf.modifyGet, StateT.modifyGet, pure, StateT.pure]

theorem postProcess_run (v : Variant) (ctx : Ctx) (l : List Ev) (n : SpanId) :
    postProcess v ctx ⟨l, n⟩ =
      (none, { log := l ++ [
         Ev.call Fn.postProcess,
         Ev.start n (spanName v Fn.postProcess) ctx
           [KeyValue.mk (Key.lit "step") (AttrValue.str "postprocess")],
         Ev.addEvent n "starting post-processing tasks",
         Ev.sleep 25,
         Ev.addEvent n "cleaning temporary data",
         Ev.sleep 15,
         Ev.addEvent n "finalizing operation",
         Ev.sleep 10,
         Ev.setStatus n Code.Ok "post-process done",
         Ev.End n,
         Ev.ret Fn.postProcess none], next := n + 1 }) := by
  simp [postProcess, emit, tracerStart, bind, StateT.bind, modify, modifyGet,
    MonadStateOf.modifyGet, StateT.modifyGet, pure, StateT.pure]

theorem callExternalAPI_transport_run (v : Variant) (statusText : Int → String) (e : GoError)
    (ctx : Ctx) (l : List Ev) (n : SpanId) :
    callExternalAPI v statusText (HttpOutcome.transportError e) ctx ⟨l, n⟩ =
      (some e, { log := l ++ [
          Ev.call Fn.callExternalAPI,
          Ev.start n (spanName v Fn.callExternalAPI) ctx
            [KeyValue.mk Key.HTTPMethodKey (AttrValue.str "GET"),
             KeyValue.mk Key.HTTPTargetKey (AttrValue.str "/"),
             KeyValue.mk Key.HTTPSchemeKey (AttrValue.str "https"),
             KeyValue.mk Key.HTTPURLKey (AttrValue.str "https://www.example.com/")],
          Ev.addEvent n "sending HTTP request",
          Ev.httpGet "https://www.example.com/",
          Ev.recordError n e,
          Ev.setStatus n Code.Error e.msg,
          Ev.End n,
          Ev.ret Fn.callExternalAPI (some e)], next := n + 1 }) := by
  simp [callExternalAPI, emit, tracerStart, bind, StateT.bind, modify, modifyGet,
    MonadStateOf.modifyGet, StateT.modifyGet, pure, StateT.pure]

theorem callExternalAPI_response_run (v : Variant) (statusText : Int → String) (c : Int)
    (ctx : Ctx) (l : List Ev) (n : SpanId) :
    callExternalAPI v statusText (HttpOutcome.response c) ctx ⟨l, n⟩ =
      (none, { log := l ++ [
          Ev.call Fn.callExternalAPI,
          Ev.start n (spanName v Fn.callExternalAPI) ctx
            [KeyValue.mk Key.HTTPMethodKey (AttrValue.str "GET"),
             KeyValue.mk Key.HTTPTargetKey (AttrValue.str "/"),
             KeyValue.mk Key.HTTPSchemeKey (AttrValue.str "https"),
             KeyValue.mk Key.HTTPURLKey (AttrValue.str "https://www.example.com/")],
          Ev.addEvent n "sending HTTP request",
          Ev.httpGet "https://www.example.com/",
          Ev.setAttributes n (KeyValue.mk Key.HTTPStatusCodeKey (AttrValue.int c)),
          Ev.setStatus n (httpStatus statusText c).code (httpStatus statusText c).description,
          Ev.addEvent n "reading HTTP response",
          Ev.readAll,
          Ev.addEvent n (responseRead v),
          Ev.bodyClose,
          Ev.End n,
          Ev.ret Fn.callExternalAPI none], next := n + 1 }) := by
  by_cases h : c ≥ 400 <;>
  simp [callExternalAPI, httpStatus, h, emit, tracerStart, bind, StateT.bind, modify, modifyGet,
    MonadStateOf.modifyGet, StateT.modifyGet, pure, StateT.pure]

theorem doWork_transport_run (v : Variant) (statusText : Int → String) (e : GoError)
    (ctx : Ctx) (l : List Ev) (n : SpanId) :
    doWork v statusText (HttpOutcome.transportError e) ctx ⟨l, n⟩ =
      (some e, { log := l ++ [
       Ev.call Fn.doWork,
       Ev.start n (spanName v Fn.doWork) ctx
         [KeyValue.mk (Key.lit "operation") (AttrValue.str "db+api")],
       Ev.addEvent n "start work sequence",
       Ev.sleep 30,
       Ev.call Fn.cacheLookup,
       Ev.start (n + 1) (spanName v Fn.cacheLookup) (some n)
         [KeyValue.mk (Key.lit "cache") (AttrValue.str "redis")],
       Ev.addEvent (n + 1) "checking cache",
       Ev.sleep 15,
       Ev.End (n + 1),
       Ev.ret Fn.cacheLookup (some (GoError.mk "cache miss")),
       Ev.addEvent n "cache miss",
       Ev.call Fn.databaseCall,
       Ev.start (n + 2) (spanName v Fn.databaseCall) (some n)
         [KeyValue.mk Key.DBSystemKey (AttrValue.str "postgresql"),
          KeyValue.mk Key.DBStatementKey (AttrValue.str "SELECT * FROM users WHERE id=123")],
       Ev.addEvent (n + 2) (sendingDbQuery v),
       Ev.sleep 40,
       Ev.addEvent (n + 2) "db query returned",
       Ev.End (n + 2),
       Ev.ret Fn.databaseCall none,
       Ev.call Fn.callExternalAPI,
       Ev.start (n + 3) (spanName v Fn.callExternalAPI) (some n)
         [KeyValue.mk Key.HTTPMethodKey (AttrValue.str "GET"),
          KeyValue.mk Key.HTTPTargetKey (AttrValue.str "/"),
          KeyValue.mk Key.HTTPSchemeKey (AttrValue.str "https"),
          KeyValue.mk Key.HTTPURLKey (AttrValue.str "https://www.example.com/")],
       Ev.addEvent (n + 3) "sending HTTP request",
       Ev.httpGet "https://www.example.com/",
       Ev.recordError (n + 3) e,
       Ev.setStatus (n + 3) Code.Error e.msg,
       Ev.End (n + 3),
       Ev.ret Fn.callExternalAPI (some e),
       Ev.recordError n e,
       Ev.setStatus n Code.Error e.msg,
       Ev.End n,
       Ev.ret Fn.doWork (some e)], next := n + 4 }) := by
  simp [doWork, cacheLookup_run, databaseCall_run, callExternalAPI_transport_run, emit,
    tracerStart, bind, StateT.bind, modify, modifyGet, MonadStateOf.modifyGet,
    StateT.modifyGet, pure, StateT.pure]

theorem doWork_response_run (v : Variant) (statusText : Int → String) (c : Int)
    (ctx : Ctx) (l : List Ev) (n : SpanId) :
    doWork v statusText (HttpOutcome.response c) ctx ⟨l, n⟩ =
      (none, { log := l ++ [
       Ev.call Fn.doWork,
       Ev.start n (spanName v Fn.doWork) ctx
         [KeyValue.mk (Key.lit "operation") (AttrValue.str "db+api")],
       Ev.addEvent n "start work sequence",
       Ev.sleep 30,
       Ev.call Fn.cacheLookup,
       Ev.start (n + 1) (spanName v Fn.cacheLookup) (some n)
         [KeyValue.mk (Key.lit "cache") (AttrValue.str "redis")],
       Ev.addEvent (n + 1) "checking cache",
       Ev.sleep 15,
       Ev.End (n + 1),
       Ev.ret Fn.cacheLookup (some (GoError.mk "cache miss")),
       Ev.addEvent n "cache miss",
       Ev.call Fn.databaseCall,
       Ev.start (n + 2) (spanName v Fn.databaseCall) (some n)
         [KeyValue.mk Key.DBSystemKey (AttrValue.str "postgresql"),
          KeyValue.mk Key.DBStatementKey (AttrValue.str "SELECT * FROM users WHERE id=123")],
       Ev.addEvent (n + 2) (sendingDbQuery v),
       Ev.sleep 40,
       Ev.addEvent (n + 2) "db query returned",
       Ev.End (n + 2),
       Ev.ret Fn.databaseCall none,
       Ev.call Fn.callExternalAPI,
       Ev.start (n + 3) (spanName v Fn.callExternalAPI) (some n)
         [KeyValue.mk Key.HTTPMethodKey (AttrValue.str "GET"),
          KeyValue.mk Key.HTTPTargetKey (AttrValue.str "/"),
          KeyValue.mk Key.HTTPSchemeKey (AttrValue.str "https"),
          KeyValue.mk Key.HTTPURLKey (AttrValue.str "https://www.example.com/")],
       Ev.addEvent (n + 3) "sending HTTP request",
       Ev.httpGet "https://www.example.com/",
       Ev.setAttributes (n + 3) (KeyValue.mk Key.HTTPStatusCodeKey (AttrValue.int c)),
       Ev.setStatus (n + 3) (httpStatus statusText c).code
         (httpStatus statusText c).description,
       Ev.addEvent (n + 3) "reading HTTP response",
       Ev.readAll,
       Ev.addEvent (n + 3) (responseRead v),
       Ev.bodyClose,
       Ev.End (n + 3),
       Ev.ret Fn.callExternalAPI none,
       Ev.setStatus n Code.Ok (workOk v),
       Ev.End n,
       Ev.ret Fn.doWork none], next := n + 4 }) := by
  simp [doWork, cacheLookup_run, databaseCall_run, callExternalAPI_response_run, emit,
    tracerStart, bind, StateT.bind, modify, modifyGet, MonadStateOf.modifyGet,
    StateT.modifyGet, pure, StateT.pure]

theorem trace_transportError (v : Variant) (statusText : Int → String) (e : GoError) :
    trace v statusText (HttpOutcome.transportError e) =
      [Ev.call Fn.main,
       Ev.start 0 (spanName v Fn.main) none
         [KeyValue.mk (Key.lit "startup") (AttrValue.str "true")],
       Ev.addEvent 0 (beginText v),
       Ev.call Fn.preCheck,
       Ev.start 1 (spanName v Fn.preCheck) (some 0)
         [KeyValue.mk (Key.lit "step") (AttrValue.str "precheck")],
       Ev.addEvent 1 "checking prerequisites",
       Ev.sleep 20,
       Ev.End 1,
       Ev.ret Fn.preCheck none,
       Ev.call Fn.doWork,
       Ev.start 2 (spanName v Fn.doWork) (some 0)
         [KeyValue.mk (Key.lit "operation") (AttrValue.str "db+api")],
       Ev.addEvent 2 "start work sequence",
       Ev.sleep 30,
       Ev.call Fn.cacheLookup,
       Ev.start 3 (spanName v Fn.cacheLookup) (some 2)
         [KeyValue.mk (Key.lit "cache") (AttrValue.str "redis")],
       Ev.addEvent 3 "checking cache",
       Ev.sleep 15,
       Ev.End 3,
       Ev.ret Fn.cacheLookup (some (GoError.mk "cache miss")),
       Ev.addEvent 2 "cache miss",
       Ev.call Fn.databaseCall,
       Ev.start 4 (spanName v Fn.databaseCall) (some 2)
         [KeyValue.mk Key.DBSystemKey (AttrValue.str "postgresql"),
          KeyValue.mk Key.DBStatementKey (AttrValue.str "SELECT * FROM users WHERE id=123")],
       Ev.addEvent 4 (sendingDbQuery v),
       Ev.sleep 40,
       Ev.addEvent 4 "db query returned",
       Ev.End 4,
       Ev.ret Fn.databaseCall none,
       Ev.call Fn.callExternalAPI,
       Ev.start 5 (spanName v Fn.callExternalAPI) (some 2)
         [KeyValue.mk Key.HTTPMethodKey (AttrValue.str "GET"),
          KeyValue.mk Key.HTTPTargetKey (AttrValue.str "/"),
          KeyValue.mk Key.HTTPSchemeKey (AttrValue.str "https"),
          KeyValue.mk Key.HTTPURLKey (AttrValue.str "https://www.example.com/")],
       Ev.addEvent 5 "sending HTTP request",
       Ev.httpGet "https://www.example.com/",
       Ev.recordError 5 e,
       Ev.setStatus 5 Code.Error e.msg,
       Ev.End 5,
       Ev.ret Fn.callExternalAPI (some e),
       Ev.recordError 2 e,
       Ev.setStatus 2 Code.Error e.msg,
       Ev.End 2,
       Ev.ret Fn.doWork (some e),
       Ev.recordError 0 e,
       Ev.setStatus 0 Code.Error e.msg,
       Ev.End 0,
       Ev.shutdown,
       Ev.ret Fn.main none] := by
  simp only [trace, main, StateT.run, bind, StateT.bind, emit, modify, modifyGet,
    MonadStateOf.modifyGet, StateT.modifyGet, pure, StateT.pure, tracerStart,
    preCheck_run, doWork_transport_run, List.nil_append, List.append_assoc, List.cons_append,
    Nat.zero_add, Nat.reduceAdd]

theorem trace_response (v : Variant) (statusText : Int → String) (c : Int) :
    trace v statusText (HttpOutcome.response c) =
      [Ev.call Fn.main,
       Ev.start 0 (spanName v Fn.main) none
         [KeyValue.mk (Key.lit "startup") (AttrValue.str "true")],
       Ev.addEvent 0 (beginText v),
       Ev.call Fn.preCheck,
       Ev.start 1 (spanName v Fn.preCheck) (some 0)
         [KeyValue.mk (Key.lit "step") (AttrValue.str "precheck")],
       Ev.addEvent 1 "checking prerequisites",
       Ev.sleep 20,
       Ev.End 1,
       Ev.ret Fn.preCheck none,
       Ev.call Fn.doWork,
       Ev.start 2 (spanName v Fn.doWork) (some 0)
         [KeyValue.mk (Key.lit "operation") (AttrValue.str "db+api")],
       Ev.addEvent 2 "start work sequence",
       Ev.sleep 30,
       Ev.call Fn.cacheLookup,
       Ev.start 3 (spanName v Fn.cacheLookup) (some 2)
         [KeyValue.mk (Key.lit "cache") (AttrValue.str "redis")],
       Ev.addEvent 3 "checking cache",
       Ev.sleep 15,
       Ev.End 3,
       Ev.ret Fn.cacheLookup (some (GoError.mk "cache miss")),
       Ev.addEvent 2 "cache miss",
       Ev.call Fn.databaseCall,
       Ev.start 4 (spanName v Fn.databaseCall) (some 2)
         [KeyValue.mk Key.DBSystemKey (AttrValue.str "postgresql"),
          KeyValue.mk Key.DBStatementKey (AttrValue.str "SELECT * FROM users WHERE id=123")],
       Ev.addEvent 4 (sendingDbQuery v),
       Ev.sleep 40,
       Ev.addEvent 4 "db query returned",
       Ev.End 4,
       Ev.ret Fn.databaseCall none,
       Ev.call Fn.callExternalAPI,
       Ev.start 5 (spanName v Fn.callExternalAPI) (some 2)
         [KeyValue.mk Key.HTTPMethodKey (AttrValue.str "GET"),
          KeyValue.mk Key.HTTPTargetKey (AttrValue.str "/"),
          KeyValue.mk Key.HTTPSchemeKey (AttrValue.str "https"),
          KeyValue.mk Key.HTTPURLKey (AttrValue.str "https://www.example.com/")],
       Ev.addEvent 5 "sending HTTP request",
       Ev.httpGet "https://www.example.com/",
       Ev.setAttributes 5 (KeyValue.mk Key.HTTPStatusCodeKey (AttrValue.int c)),
       Ev.setStatus 5 (httpStatus statusText c).code (httpStatus statusText c).description,
       Ev.addEvent 5 "reading HTTP response",
       Ev.readAll,
       Ev.addEvent 5 (responseRead v),
       Ev.bodyClose,
       Ev.End 5,
       Ev.ret Fn.callExternalAPI none,
       Ev.setStatus 2 Code.Ok (workOk v),
       Ev.End 2,
       Ev.ret Fn.doWork none,
       Ev.call Fn.postProcess,
       Ev.start 6 (spanName v Fn.postProcess) (some 0)
         [KeyValue.mk (Key.lit "step") (AttrValue.str "postprocess")],
       Ev.addEvent 6 "starting post-processing tasks",
       Ev.sleep 25,
       Ev.addEvent 6 "cleaning temporary data",
       Ev.sleep 15,
       Ev.addEvent 6 "finalizing operation",
       Ev.sleep 10,
       Ev.setStatus 6 Code.Ok "post-process done",
       Ev.End 6,
       Ev.ret Fn.postProcess none,
       Ev.setStatus 0 Code.Ok (allStepsCompleted v),
       Ev.println (doneText v),
       Ev.End 0,
       Ev.shutdown,
       Ev.ret Fn.main none] := by
  simp only [trace, main, StateT.run, bind, StateT.bind, emit, modify, modifyGet,
    MonadStateOf.modifyGet, StateT.modifyGet, pure, StateT.pure, tracerStart,
    preCheck_run, doWork_response_run, postProcess_run, List.nil_append, List.append_assoc,
    List.cons_append, Nat.zero_add, Nat.reduceAdd]

/-! ## Facts about the two shapes of a run -/

theorem statusOf_response (v : Variant) (statusText : Int → String) (c : Int) :
    statusOf (trace v statusText (.response c)) (spanName v .main) =
        some ⟨.Ok, allStepsCompleted v⟩ ∧
    statusOf (trace v statusText (.response c)) (spanName v .preCheck) = some ⟨.Unset, ""⟩ ∧
    statusOf (trace v statusText (.response c)) (spanName v .doWork) = some ⟨.Ok, workOk v⟩ ∧
    statusOf (trace v statusText (.response c)) (spanName v .cacheLookup) = some ⟨.Unset, ""⟩ ∧
    statusOf (trace v statusText (.response c)) (spanName v .databaseCall) =
        some ⟨.Unset, ""⟩ ∧
    statusOf (trace v statusText (.response c)) (spanName v .callExternalAPI) =
        some (httpStatus statusText c) ∧
    statusOf (trace v statusText (.response c)) (spanName v .postProcess) =
        some ⟨.Ok, "post-process done"⟩ := by
  rw [trace_response]
  cases v <;>
  simp [statusOf, spanNamed, startedAs, finalStatus, statusSetOn, spanName]

theorem statusOf_transportError (v : Variant) (statusText : Int → String) (e : GoError) :
    statusOf (trace v statusText (.transportError e)) (spanName v .main) =
        some ⟨.Error, e.msg⟩ ∧
    statusOf (trace v statusText (.transportError e)) (spanName v .doWork) =
        some ⟨.Error, e.msg⟩ ∧
    statusOf (trace v statusText (.transportError e)) (spanName v .callExternalAPI) =
        some ⟨.Error, e.msg⟩ ∧
    statusOf (trace v statusText (.transportError e)) (spanName v .postProcess) = none := by
  rw [trace_transportError]
  cases v <;>
  simp [statusOf, spanNamed, startedAs, finalStatus, statusSetOn, spanName]

theorem spanNamed_response (v : Variant) (statusText : Int → String) (c : Int) :
    spanNamed (trace v statusText (.response c)) (spanName v .main) = some 0 ∧
    spanNamed (trace v statusText (.response c)) (spanName v .doWork) = some 2 ∧
    spanNamed (trace v statusText (.response c)) (spanName v .callExternalAPI) = some 5 := by
  rw [trace_response]
  cases v <;> simp [spanNamed, startedAs, spanName]

theorem spanNamed_transportError (v : Variant) (statusText : Int → String) (e : GoError) :
    spanNamed (trace v statusText (.transportError e)) (spanName v .main) = some 0 ∧
    spanNamed (trace v statusText (.transportError e)) (spanName v .doWork) = some 2 ∧
    spanNamed (trace v statusText (.transportError e)) (spanName v .callExternalAPI) = some 5 ∧
    spanNamed (trace v statusText (.transportError e)) (spanName v .postProcess) = none := by
  rw [trace_transportError]
  cases v <;> simp [spanNamed, startedAs, spanName]

theorem spanEvents_response (v : Variant) (statusText : Int → String) (c : Int) :
    spanEvents (trace v statusText (.response c)) =
      [SpanEv.started 0 none, SpanEv.started 1 (some 0), SpanEv.ended 1,
       SpanEv.started 2 (some 0), SpanEv.started 3 (some 2), SpanEv.ended 3,
       SpanEv.started 4 (some 2), SpanEv.ended 4, SpanEv.started 5 (some 2), SpanEv.ended 5,
       SpanEv.ended 2, SpanEv.started 6 (some 0), SpanEv.ended 6, SpanEv.ended 0] := by
  rw [trace_response]
  rfl

theorem spanEvents_transportError (v : Variant) (statusText : Int → String) (e : GoError) :
    spanEvents (trace v statusText (.transportError e)) =
      [SpanEv.started 0 none, SpanEv.started 1 (some 0), SpanEv.ended 1,
       SpanEv.started 2 (some 0), SpanEv.started 3 (some 2), SpanEv.ended 3,
       SpanEv.started 4 (some 2), SpanEv.ended 4, SpanEv.started 5 (some 2), SpanEv.ended 5,
       SpanEv.ended 2, SpanEv.ended 0] := by
  rw [trace_transportError]
  rfl

theorem startedSpans_response (v : Variant) (statusText : Int → String) (c : Int) :
    startedSpans (trace v statusText (.response c)) =
      [(0, spanName v Fn.main, none), (1, spanName v Fn.preCheck, some 0),
       (2, spanName v Fn.doWork, some 0), (3, spanName v Fn.cacheLookup, some 2),
       (4, spanName v Fn.databaseCall, some 2), (5, spanName v Fn.callExternalAPI, some 2),
       (6, spanName v Fn.postProcess, some 0)] := by
  rw [trace_response]
  rfl

theorem startedSpans_transportError (v : Variant) (statusText : Int → String) (e : GoError) :
    startedSpans (trace v statusText (.transportError e)) =
      [(0, spanName v Fn.main, none), (1, spanName v Fn.preCheck, some 0),
       (2, spanName v Fn.doWork, some 0), (3, spanName v Fn.cacheLookup, some 2),
       (4, spanName v Fn.databaseCall, some 2), (5, spanName v Fn.callExternalAPI, some 2)] := by
  rw [trace_transportError]
  rfl

theorem main_exporter_failure (v : Variant) (statusText : Int → String) (err : GoError)
    (o : HttpOutcome) :
    (main v statusText (some err) o).run {} =
      (some ⟨exporterFailed v ++ err.msg⟩, { log := [Ev.call Fn.main], next := 0 }) := by
  simp only [main, StateT.run, bind, StateT.bind, emit, modify, modifyGet,
    MonadStateOf.modifyGet, StateT.modifyGet, pure, StateT.pure, List.nil_append]

theorem sdkStatusOf_response (v : Variant) (statusText : Int → String) (c : Int) :
    sdkStatusOf (trace v statusText (.response c)) (spanName v .main) = some ⟨.Ok, ""⟩ ∧
    sdkStatusOf (trace v statusText (.response c)) (spanName v .preCheck) =
        some ⟨.Unset, ""⟩ ∧
    sdkStatusOf (trace v statusText (.response c)) (spanName v .doWork) = some ⟨.Ok, ""⟩ ∧
    sdkStatusOf (trace v statusText (.response c)) (spanName v .cacheLookup) =
        some ⟨.Unset, ""⟩ ∧
    sdkStatusOf (trace v statusText (.response c)) (spanName v .databaseCall) =
        some ⟨.Unset, ""⟩ ∧
    sdkStatusOf (trace v statusText (.response c)) (spanName v .callExternalAPI) =
        some (httpStatus statusText c) ∧
    sdkStatusOf (trace v statusText (.response c)) (spanName v .postProcess) =
        some ⟨.Ok, ""⟩ := by
  rw [trace_response]
  by_cases h : c ≥ 400 <;> cases v <;>
  simp [sdkStatusOf, spanNamed, startedAs, sdkStatus, sdkStep, Code.rank, spanName,
    httpStatus, h]

theorem sdkStatusOf_transportError (v : Variant) (statusText : Int → String) (e : GoError) :
    sdkStatusOf (trace v statusText (.transportError e)) (spanName v .main) =
        some ⟨.Error, e.msg⟩ ∧
    sdkStatusOf (trace v statusText (.transportError e)) (spanName v .preCheck) =
        some ⟨.Unset, ""⟩ ∧
    sdkStatusOf (trace v statusText (.transportError e)) (spanName v .doWork) =
        some ⟨.Error, e.msg⟩ ∧
    sdkStatusOf (trace v statusText (.transportError e)) (spanName v .cacheLookup) =
        some ⟨.Unset, ""⟩ ∧
    sdkStatusOf (trace v statusText (.transportError e)) (spanName v .databaseCall) =
        some ⟨.Unset, ""⟩ ∧
    sdkStatusOf (trace v statusText (.transportError e)) (spanName v .callExternalAPI) =
        some ⟨.Error, e.msg⟩ ∧
    sdkStatusOf (trace v statusText (.transportError e)) (spanName v .postProcess) = none := by
  rw [trace_transportError]
  cases v <;>
  simp [sdkStatusOf, spanNamed, startedAs, sdkStatus, sdkStep, Code.rank, spanName]

theorem statusOf_all_transportError (v : Variant) (statusText : Int → String) (e : GoError) :
    statusOf (trace v statusText (.transportError e)) (spanName v .preCheck) =
        some ⟨.Unset, ""⟩ ∧
    statusOf (trace v statusText (.transportError e)) (spanName v .cacheLookup) =
        some ⟨.Unset, ""⟩ ∧
    statusOf (trace v statusText (.transportError e)) (spanName v .databaseCall) =
        some ⟨.Unset, ""⟩ := by
  rw [trace_transportError]
  cases v <;>
  simp [statusOf, spanNamed, startedAs, finalStatus, statusSetOn, spanName]

theorem sdkStatusOf_agrees (v : Variant) (statusText : Int → String) (o : HttpOutcome)
    (f : Fn) :
    (sdkStatusOf (trace v statusText o) (spanName v f)).map Status.code =
      (statusOf (trace v statusText o) (spanName v f)).map Status.code ∧
    ((statusOf (trace v statusText o) (spanName v f)).map Status.code = some .Error →
      sdkStatusOf (trace v statusText o) (spanName v f) =
        statusOf (trace v statusText o) (spanName v f)) := by
  cases o with
  | transportError e =>
    obtain ⟨a0, a1, a2, a3, a4, a5, a6⟩ := sdkStatusOf_transportError v statusText e
    obtain ⟨b0, b2, b5, b6⟩ := statusOf_transportError v statusText e
    obtain ⟨b1, b3, b4⟩ := statusOf_all_transportError v statusText e
    cases f <;> simp [*]
  | response c =>
    obtain ⟨a0, a1, a2, a3, a4, a5, a6⟩ := sdkStatusOf_response v statusText c
    obtain ⟨b0, b1, b2, b3, b4, b5, b6⟩ := statusOf_response v statusText c
    cases f <;> simp [*]

theorem status_set_at_most_once (v : Variant) (statusText : Int → String) (o : HttpOutcome) :
    (statusSetSpans (trace v statusText o)).Nodup := by
  cases o with
  | transportError e =>
    rw [trace_transportError]
    simp [statusSetSpans]
  | response c =>
    rw [trace_response]
    simp [statusSetSpans]

theorem segment_of_take_drop {α : Type} (L M : List α) (i : Nat)
    (h : (L.drop i).take M.length = M) : M <:+: L := by
  refine ⟨L.take i, (L.drop i).drop M.length, ?_⟩
  have h1 : M ++ (L.drop i).drop M.length = L.drop i := by
    have h2 := List.take_append_drop M.length (L.drop i)
    rwa [h] at h2
  rw [List.append_assoc, h1, List.take_append_drop]

/-! ## The claims -/

/-- C1: in `callExternalAPI` (either program, started from any context and any
tracer state), when the client returns a response with status code `c`, the
span the function starts (the HTTP span) gets `c` as its
`HTTPStatusCodeKey` attribute, and its final status is `Error` when
`c >= 400` and `Ok` when `c < 400`. -/
theorem callExternalAPI_records_code_and_sets_status (v : Variant)
    (statusText : Int → String) (c : Int) (ctx : Ctx) (t : Tracer) :
    Ev.start t.next (spanName v .callExternalAPI) ctx
        [⟨.HTTPMethodKey, .str "GET"⟩, ⟨.HTTPTargetKey, .str "/"⟩,
         ⟨.HTTPSchemeKey, .str "https"⟩, ⟨.HTTPURLKey, .str "https://www.example.com/"⟩] ∈
        ((callExternalAPI v statusText (.response c) ctx).run t).2.log ∧
    Ev.setAttributes t.next ⟨.HTTPStatusCodeKey, .int c⟩ ∈
        ((callExternalAPI v statusText (.response c) ctx).run t).2.log ∧
    (c ≥ 400 → (finalStatus ((callExternalAPI v statusText (.response c) ctx).run t).2.log
        t.next).code = .Error) ∧
    (c < 400 → (finalStatus ((callExternalAPI v statusText (.response c) ctx).run t).2.log
        t.next).code = .Ok) := by
  obtain ⟨l, n⟩ := t
  simp only [StateT.run, callExternalAPI_response_run]
  refine ⟨by simp, by simp, ?_, ?_⟩
  · intro h
    simp [finalStatus, statusSetOn, httpStatus, h]
  · intro h
    have h2 : ¬ c ≥ 400 := by omega
    simp [finalStatus, statusSetOn, httpStatus, h2]

/-- C2, as stated, fails: for a response with status code 404 (which is
`>= 400`) `callExternalAPI` returns `nil`, so "returns a non-nil error exactly
when the transport fails or the status code is >= 400" is false there. -/
theorem callExternalAPI_returns_nil_on_404 :
    ¬ (((callExternalAPI .http (fun _ => "Not Found") (.response 404) none).run {}).1 ≠ none ↔
        (HttpOutcome.response 404).transportFailed ∨
        (HttpOutcome.response 404).statusAtLeast 400) := by
  simp [StateT.run, callExternalAPI_response_run, HttpOutcome.transportFailed,
    HttpOutcome.statusAtLeast]

/-- C2, amended: `callExternalAPI` returns a non-nil error exactly when the
request fails at the transport level, and the error it returns is then the
transport error; for every response, whatever its status code, it returns
`nil`. `doWork` returns the same value to `main`. -/
theorem callExternalAPI_fails_iff_transport_error (v : Variant) (statusText : Int → String)
    (o : HttpOutcome) (ctx : Ctx) (t : Tracer) :
    (((callExternalAPI v statusText o ctx).run t).1 ≠ none ↔ o.transportFailed) ∧
    ((callExternalAPI v statusText o ctx).run t).1 =
      (match o with
       | .transportError e => some e
       | .response _ => none) ∧
    ((doWork v statusText o ctx).run t).1 =
      (match o with
       | .transportError e => some e
       | .response _ => none) := by
  obtain ⟨l, n⟩ := t
  cases o with
  | transportError e =>
    simp [StateT.run, callExternalAPI_transport_run, doWork_transport_run,
      HttpOutcome.transportFailed]
  | response c =>
    simp [StateT.run, callExternalAPI_response_run, doWork_response_run,
      HttpOutcome.transportFailed]

/-- C3, as stated, fails: in the run of `http.go` where the HTTP call returns
status 200 the three steps `preCheck`, `doWork` and `postProcess` all return
`nil`, yet the status of the root span is not ok with the message "all steps
completed": the tracing SDK keeps no description next to `codes.Ok`, so the
status is ok with an empty message. -/
theorem root_ok_message_dropped_on_200 :
    ¬ (sdkStatusOf (trace .http (fun _ => "OK") (.response 200)) (spanName .http .main) =
          some ⟨.Ok, "all steps completed"⟩ ↔
        (Ev.ret .preCheck none ∈ trace .http (fun _ => "OK") (.response 200) ∧
         Ev.ret .doWork none ∈ trace .http (fun _ => "OK") (.response 200) ∧
         Ev.ret .postProcess none ∈ trace .http (fun _ => "OK") (.response 200))) := by
  rw [(sdkStatusOf_response .http (fun _ => "OK") 200).1]
  have h : Ev.ret .preCheck none ∈ trace .http (fun _ => "OK") (.response 200) ∧
      Ev.ret .doWork none ∈ trace .http (fun _ => "OK") (.response 200) ∧
      Ev.ret .postProcess none ∈ trace .http (fun _ => "OK") (.response 200) := by
    rw [trace_response]; simp
  simp [h]

/-- C3, amended: for every outcome of the HTTP call, the final status code of
the root span is `Ok` if and only if `preCheck`, `doWork` and `postProcess` all
return `nil` in the run; in every other run the final status code of the root
span is `Error`. -/
theorem root_code_ok_iff_all_steps_succeed (v : Variant) (statusText : Int → String)
    (o : HttpOutcome) :
    ((sdkStatusOf (trace v statusText o) (spanName v .main)).map Status.code = some .Ok ↔
      (Ev.ret .preCheck none ∈ trace v statusText o ∧
       Ev.ret .doWork none ∈ trace v statusText o ∧
       Ev.ret .postProcess none ∈ trace v statusText o)) ∧
    (¬ (Ev.ret .preCheck none ∈ trace v statusText o ∧
        Ev.ret .doWork none ∈ trace v statusText o ∧
        Ev.ret .postProcess none ∈ trace v statusText o) →
      (sdkStatusOf (trace v statusText o) (spanName v .main)).map Status.code =
        some .Error) := by
  cases o with
  | transportError e =>
    rw [(sdkStatusOf_transportError v statusText e).1]
    have h : Ev.ret .doWork none ∉ trace v statusText (.transportError e) := by
      rw [trace_transportError]; simp
    simp [h]
  | response c =>
    rw [(sdkStatusOf_response v statusText c).1]
    have h : Ev.ret .preCheck none ∈ trace v statusText (.response c) ∧
        Ev.ret .doWork none ∈ trace v statusText (.response c) ∧
        Ev.ret .postProcess none ∈ trace v statusText (.response c) := by
      rw [trace_response]; simp
    simp [h]

/-- C4: in every run in which `databaseCall` or `callExternalAPI` returns an
error `e`, `doWork` returns `e`, `main` returns without `postProcess` ever
being called, and no span with the post-process name is started. -/
theorem doWork_failure_short_circuits (v : Variant) (statusText : Int → String)
    (o : HttpOutcome) (e : GoError)
    (h : Ev.ret .databaseCall (some e) ∈ trace v statusText o ∨
         Ev.ret .callExternalAPI (some e) ∈ trace v statusText o) :
    Ev.ret .doWork (some e) ∈ trace v statusText o ∧
    Ev.call .postProcess ∉ trace v statusText o ∧
    Ev.ret .main none ∈ trace v statusText o ∧
    spanNamed (trace v statusText o) (spanName v .postProcess) = none := by
  cases o with
  | transportError e1 =>
    refine ⟨?_, ?_, ?_, (spanNamed_transportError v statusText e1).2.2.2⟩
    · rw [trace_transportError] at h ⊢
      simp at h
      simp [h]
    · rw [trace_transportError]; simp
    · rw [trace_transportError]; simp
  | response c =>
    rw [trace_response] at h
    simp at h

/-- C4 at a concrete run: `http.go` with the transport error
"connection refused". -/
theorem doWork_failure_short_circuits_witness :
    Ev.ret .doWork (some ⟨"connection refused"⟩) ∈
      trace .http (fun _ => "") (.transportError ⟨"connection refused"⟩) ∧
    Ev.call .postProcess ∉ trace .http (fun _ => "") (.transportError ⟨"connection refused"⟩) ∧
    Ev.ret .main none ∈ trace .http (fun _ => "") (.transportError ⟨"connection refused"⟩) ∧
    spanNamed (trace .http (fun _ => "") (.transportError ⟨"connection refused"⟩))
      (spanName .http .postProcess) = none :=
  doWork_failure_short_circuits .http (fun _ => "") (.transportError ⟨"connection refused"⟩)
    ⟨"connection refused"⟩ (by rw [trace_transportError]; simp)

/-- C5: in every run (transport error, or a response with any status code)
exactly one span without parent is started, the one named after `main`; no
span identity is started twice; and every span that is started is ended
exactly once, after its start, also on the early-return paths. -/
theorem one_root_and_every_span_ended_once (v : Variant) (statusText : Int → String)
    (o : HttpOutcome) :
    (startedSpans (trace v statusText o)).filter (fun s => s.2.2.isNone) =
      [(0, spanName v .main, none)] ∧
    ((startedSpans (trace v statusText o)).map (fun s => s.1)).Nodup ∧
    ∀ s p, SpanEv.started s p ∈ spanEvents (trace v statusText o) →
      (spanEvents (trace v statusText o)).count (.ended s) = 1 ∧
      (spanEvents (trace v statusText o)).indexOf (.started s p) <
        (spanEvents (trace v statusText o)).indexOf (.ended s) := by
  cases o with
  | transportError e =>
    rw [startedSpans_transportError, spanEvents_transportError]
    refine ⟨rfl, by simp, ?_⟩
    intro s p h
    simp only [List.mem_cons, SpanEv.started.injEq, List.mem_singleton, reduceCtorEq,
      or_false, false_or, List.not_mem_nil] at h
    rcases h with ⟨rfl, rfl⟩ | ⟨rfl, rfl⟩ | ⟨rfl, rfl⟩ | ⟨rfl, rfl⟩ | ⟨rfl, rfl⟩ | ⟨rfl, rfl⟩ <;>
      decide
  | response c =>
    rw [startedSpans_response, spanEvents_response]
    refine ⟨rfl, by simp, ?_⟩
    intro s p h
    simp only [List.mem_cons, SpanEv.started.injEq, List.mem_singleton, reduceCtorEq,
      or_false, false_or, List.not_mem_nil] at h
    rcases h with ⟨rfl, rfl⟩ | ⟨rfl, rfl⟩ | ⟨rfl, rfl⟩ | ⟨rfl, rfl⟩ | ⟨rfl, rfl⟩ | ⟨rfl, rfl⟩ |
      ⟨rfl, rfl⟩ <;> decide

/-- C6: `cacheLookup` returns the error "cache miss" whenever it is called; in
every run, right after that return `doWork` adds the event "cache miss" to the
work span and right after that calls `databaseCall`; and in every run where
`databaseCall` and `callExternalAPI` return `nil` the final status of the work
span is `Ok`, no error is recorded on it and no `Error` status is set on it. -/
theorem cache_miss_is_swallowed (v : Variant) (statusText : Int → String) (o : HttpOutcome) :
    (∀ ctx t, ((cacheLookup v ctx).run t).1 = some ⟨"cache miss"⟩) ∧
    ∃ w, spanNamed (trace v statusText o) (spanName v .doWork) = some w ∧
      [Ev.ret .cacheLookup (some ⟨"cache miss"⟩), Ev.addEvent w "cache miss",
        Ev.call .databaseCall] <:+: trace v statusText o ∧
      (Ev.ret .databaseCall none ∈ trace v statusText o →
        Ev.ret .callExternalAPI none ∈ trace v statusText o →
          finalStatus (trace v statusText o) w = ⟨.Ok, workOk v⟩ ∧
          (∀ e, Ev.recordError w e ∉ trace v statusText o) ∧
          (∀ d, Ev.setStatus w .Error d ∉ trace v statusText o)) := by
  refine ⟨?_, 2, ?_⟩
  · rintro ctx ⟨l, n⟩
    simp only [StateT.run, cacheLookup_run]
  · cases o with
    | transportError e =>
      refine ⟨(spanNamed_transportError v statusText e).2.1, ?_, ?_⟩
      · rw [trace_transportError]
        exact segment_of_take_drop _ _ 18 rfl
      · intro _ h
        rw [trace_transportError] at h
        simp at h
    | response c =>
      refine ⟨(spanNamed_response v statusText c).2.1, ?_, ?_⟩
      · rw [trace_response]
        exact segment_of_take_drop _ _ 18 rfl
      · intro _ _
        rw [trace_response]
        simp [finalStatus, statusSetOn]

/-- C7: for every transport error `e` returned by the HTTP client, the HTTP
span, the work span and the root span each record `e` and each end with status
`Error` whose message is the message of `e`, and no span with the post-process
name is started in that run. -/
theorem transport_error_propagates_to_root (v : Variant) (statusText : Int → String)
    (e : GoError) :
    (∀ f ∈ [Fn.callExternalAPI, Fn.doWork, Fn.main],
      ∃ s, spanNamed (trace v statusText (.transportError e)) (spanName v f) = some s ∧
        Ev.recordError s e ∈ trace v statusText (.transportError e) ∧
        finalStatus (trace v statusText (.transportError e)) s = ⟨.Error, e.msg⟩) ∧
    spanNamed (trace v statusText (.transportError e)) (spanName v .postProcess) = none := by
  obtain ⟨h0, h2, h5, h6⟩ := spanNamed_transportError v statusText e
  refine ⟨?_, h6⟩
  intro f hf
  simp only [List.mem_cons, List.mem_singleton, List.not_mem_nil, or_false] at hf
  rcases hf with rfl | rfl | rfl
  · refine ⟨5, h5, ?_, ?_⟩ <;> rw [trace_transportError] <;> simp [finalStatus, statusSetOn]
  · refine ⟨2, h2, ?_, ?_⟩ <;> rw [trace_transportError] <;> simp [finalStatus, statusSetOn]
  · refine ⟨0, h0, ?_, ?_⟩ <;> rw [trace_transportError] <;> simp [finalStatus, statusSetOn]

/-- C8, as stated, fails: in the run of `http.go` where the HTTP call returns
status 200 it is not the case that root, pre-check, work, database-query,
http-get and post-process all end with status `Ok` (and the root message is
"all steps completed"): `preCheck` never calls `SetStatus`, so the pre-check
span ends with status `Unset`. -/
theorem not_all_spans_ok_on_200 :
    ¬ ((∀ f ∈ [Fn.main, Fn.preCheck, Fn.doWork, Fn.databaseCall, Fn.callExternalAPI,
          Fn.postProcess],
        (statusOf (trace .http (fun _ => "OK") (.response 200)) (spanName .http f)).map
          Status.code = some .Ok) ∧
       (statusOf (trace .http (fun _ => "OK") (.response 200)) (spanName .http .main)).map
          Status.description = some "all steps completed") := by
  intro h
  have h1 := h.1 Fn.preCheck (by simp)
  rw [(statusOf_response .http (fun _ => "OK") 200).2.1] at h1
  simp at h1

/-- C8, amended: in the run where the HTTP call returns status 200, the root,
work, http-get and post-process spans end with status code `Ok`; the pre-check,
cache-lookup and database-query spans end with status code `Unset`, no status
being set on them; and no `Error` status is set on any span. -/
theorem span_codes_on_200 (v : Variant) (statusText : Int → String) :
    (∀ f ∈ [Fn.main, Fn.doWork, Fn.callExternalAPI, Fn.postProcess],
      (sdkStatusOf (trace v statusText (.response 200)) (spanName v f)).map Status.code =
        some .Ok) ∧
    (∀ f ∈ [Fn.preCheck, Fn.cacheLookup, Fn.databaseCall],
      (sdkStatusOf (trace v statusText (.response 200)) (spanName v f)).map Status.code =
        some .Unset) ∧
    (∀ s d, Ev.setStatus s .Error d ∉ trace v statusText (.response 200)) := by
  obtain ⟨h0, h1, h2, h3, h4, h5, h6⟩ := sdkStatusOf_response v statusText 200
  refine ⟨?_, ?_, ?_⟩
  · intro f hf
    simp only [List.mem_cons, List.mem_singleton, List.not_mem_nil, or_false] at hf
    rcases hf with rfl | rfl | rfl | rfl
    · rw [h0]; rfl
    · rw [h2]; rfl
    · rw [h5]; simp [httpStatus]
    · rw [h6]; rfl
  · intro f hf
    simp only [List.mem_cons, List.mem_singleton, List.not_mem_nil, or_false] at hf
    rcases hf with rfl | rfl | rfl
    · rw [h1]; rfl
    · rw [h3]; rfl
    · rw [h4]; rfl
  · intro s d
    rw [trace_response]
    simp [httpStatus]

/-- C9: in every run where none of the steps `preCheck`, `doWork` and
`postProcess` returns an error (the error of `cacheLookup` is swallowed inside
`doWork` in every run and does not count), exactly seven spans are started, in
the order root, pre-check, work, cache lookup, database query, HTTP GET,
post-process; pre-check, work and post-process have the root as parent, cache
lookup, database query and HTTP GET have the work span as parent; every child
span is ended before its parent is ended, and before the next span with the
same parent is started. -/
theorem span_tree_shape (v : Variant) (statusText : Int → String) (o : HttpOutcome)
    (h : ∀ e, Ev.ret .preCheck (some e) ∉ trace v statusText o ∧
              Ev.ret .doWork (some e) ∉ trace v statusText o ∧
              Ev.ret .postProcess (some e) ∉ trace v statusText o) :
    startedSpans (trace v statusText o) =
      [(0, spanName v .main, none), (1, spanName v .preCheck, some 0),
       (2, spanName v .doWork, some 0), (3, spanName v .cacheLookup, some 2),
       (4, spanName v .databaseCall, some 2), (5, spanName v .callExternalAPI, some 2),
       (6, spanName v .postProcess, some 0)] ∧
    (∀ c p, SpanEv.started c (some p) ∈ spanEvents (trace v statusText o) →
      (spanEvents (trace v statusText o)).indexOf (.ended c) <
        (spanEvents (trace v statusText o)).indexOf (.ended p)) ∧
    (∀ c d p, SpanEv.started c (some p) ∈ spanEvents (trace v statusText o) →
      SpanEv.started d (some p) ∈ spanEvents (trace v statusText o) →
      (spanEvents (trace v statusText o)).indexOf (.started c (some p)) <
        (spanEvents (trace v statusText o)).indexOf (.started d (some p)) →
      (spanEvents (trace v statusText o)).indexOf (.ended c) <
        (spanEvents (trace v statusText o)).indexOf (.started d (some p))) := by
  cases o with
  | transportError e =>
    exfalso
    apply (h e).2.1
    rw [trace_transportError]; simp
  | response c =>
    rw [startedSpans_response, spanEvents_response]
    refine ⟨rfl, ?_, ?_⟩
    · intro a p h1
      simp only [List.mem_cons, SpanEv.started.injEq, List.mem_singleton, reduceCtorEq,
        or_false, false_or, List.not_mem_nil, Option.some.injEq, and_false] at h1
      rcases h1 with ⟨rfl, rfl⟩ | ⟨rfl, rfl⟩ | ⟨rfl, rfl⟩ | ⟨rfl, rfl⟩ | ⟨rfl, rfl⟩ |
        ⟨rfl, rfl⟩ <;> decide
    · intro a b p h1 h2
      simp only [List.mem_cons, SpanEv.started.injEq, List.mem_singleton, reduceCtorEq,
        or_false, false_or, List.not_mem_nil, Option.some.injEq, and_false] at h1 h2
      rcases h1 with ⟨rfl, rfl⟩ | ⟨rfl, rfl⟩ | ⟨rfl, rfl⟩ | ⟨rfl, rfl⟩ | ⟨rfl, rfl⟩ |
        ⟨rfl, rfl⟩ <;>
      rcases h2 with ⟨rfl, h3⟩ | ⟨rfl, h3⟩ | ⟨rfl, h3⟩ | ⟨rfl, h3⟩ | ⟨rfl, h3⟩ | ⟨rfl, h3⟩ <;>
        first
          | (exfalso; revert h3; decide)
          | decide

/-- C9 at a concrete run: `http.go` with a response of status 200. -/
theorem span_tree_shape_witness :
    startedSpans (trace .http (fun _ => "OK") (.response 200)) =
      [(0, "main-operation", none), (1, "pre-check", some 0), (2, "doMagic", some 0),
       (3, "cache lookup", some 2), (4, "database query", some 2),
       (5, "HTTP GET example.com", some 2), (6, "post-process", some 0)] :=
  (span_tree_shape .http (fun _ => "OK") (.response 200)
    (by intro e; rw [trace_response]; simp)).1

/-- C10: for every outcome of the HTTP call, the log of `grpc.go` is the log of
`http.go` under the fixed renaming `toGrpc`; in particular the two programs
perform the same sequence of span start/end, attribute, event, record-error and
set-status operations, on the same spans with the same parents, attributes,
recorded errors and status codes, and their functions return the same values:
with span names, event texts and status messages blanked the two sequences are
equal. -/
theorem grpc_trace_is_renamed_http_trace (statusText : Int → String) (o : HttpOutcome) :
    (trace .http statusText o).map toGrpc = trace .grpc statusText o ∧
    (trace .http statusText o).filterMap eraseTexts =
      (trace .grpc statusText o).filterMap eraseTexts := by
  cases o with
  | transportError e =>
    rw [trace_transportError, trace_transportError]
    exact ⟨rfl, rfl⟩
  | response c =>
    rw [trace_response, trace_response]
    by_cases h : c ≥ 400
    · simp only [httpStatus, h, if_true]
      exact ⟨rfl, rfl⟩
    · simp only [httpStatus, h, if_false]
      exact ⟨rfl, rfl⟩

end OtelDemo
